import Mathlib

/-!
Shallow embedding of the ccg-tcp-server wire protocol, checksum, script
dispatcher and play-card pipeline, together with proofs of the spec's
testable properties.

Conventions:
* Rust `u8` bytes are `Nat` values; where a theorem needs them to be bytes it
  carries the hypothesis `b < 256`.
* The Rust `i16` header fields (`checksum`, `payload_length`) are modelled by
  their 16-bit pattern as a `Nat` (`x as i16` / `x as u16` are the identity on
  the pattern; truncating casts are `% 65536`).
* Fallible Rust functions returning `Result` become `Except`.
* The repository contains two parallel codecs: `tcp/header.rs` + `tcp/packet.rs`
  (`HeaderType`, `Header`, `Packet`) and a duplicate inside `tcp/protocol.rs`
  (`MessageType`, `ProtocolHeader`, `Packet`).  Both are embedded; the second
  lives in the `Protocol` namespace.
-/

/-- `Checksum::new` (src/utils/checksum.rs): 16-bit XOR fold over the payload,
starting from 0 (`checksum ^= byte as u16` for each byte). -/
def Checksum.new (payload : List Nat) : Nat :=
  payload.foldl (fun checksum byte => checksum ^^^ byte) 0

/-- `Checksum::check` (src/utils/checksum.rs): the stored `i16` checksum equals
the recomputed checksum, compared on the 16-bit pattern. -/
def Checksum.check (checksum : Nat) (payload : List Nat) : Bool :=
  checksum == Checksum.new payload

/-- `HeaderType` (src/tcp/header.rs). -/
inductive HeaderType where
  | Disconnect
  | Connect
  | Ping
  | Reconnect
  | GameState
  | PlayCard
  | AttackPlayer
  | InitServer
  | InvalidHeader
  | AlreadyConnected
  | InvalidPlayerData
  | InvalidChecksum
  | FailedToConnectPlayer
  | InvalidPacketPayload
  | ERROR
deriving DecidableEq, Repr

/-- The `#[repr(u8)]` discriminant of each `HeaderType` variant. -/
def HeaderType.toByte : HeaderType → Nat
  | .Disconnect => 0x00
  | .Connect => 0x01
  | .Ping => 0x02
  | .Reconnect => 0x03
  | .GameState => 0x10
  | .PlayCard => 0x11
  | .AttackPlayer => 0x12
  | .InitServer => 0x13
  | .InvalidHeader => 0xFA
  | .AlreadyConnected => 0xFB
  | .InvalidPlayerData => 0xFC
  | .InvalidChecksum => 0xFD
  | .FailedToConnectPlayer => 0xF0
  | .InvalidPacketPayload => 0xF1
  | .ERROR => 0xFE

/-- `impl TryFrom<u8> for HeaderType` (src/tcp/header.rs). -/
def HeaderType.try_from (value : Nat) : Option HeaderType :=
  match value with
  | 0x00 => some .Disconnect
  | 0x01 => some .Connect
  | 0x02 => some .Ping
  | 0x03 => some .Reconnect
  | 0x10 => some .GameState
  | 0x11 => some .PlayCard
  | 0x12 => some .AttackPlayer
  | 0x13 => some .InitServer
  | 0xFA => some .InvalidHeader
  | 0xFB => some .AlreadyConnected
  | 0xFC => some .InvalidPlayerData
  | 0xFD => some .InvalidChecksum
  | 0xF0 => some .FailedToConnectPlayer
  | 0xF1 => some .InvalidPacketPayload
  | 0xFE => some .ERROR
  | _ => none

/-- `ProtocolError` (src/utils/errors.rs). -/
inductive ProtocolError where
  | InvalidHeaderError (msg : String)
  | InvalidPacketError (msg : String)
deriving DecidableEq, Repr

/-- `Header` (src/tcp/header.rs): `checksum : i16`, `payload_length : i16`
modelled as 16-bit patterns. -/
structure Header where
  checksum : Nat
  payload_length : Nat
  header_type : HeaderType
deriving DecidableEq, Repr

/-- `Header::new` (src/tcp/header.rs): `Checksum::new(payload) as i16` and
`payload.len() as i16` (both truncating casts to the 16-bit pattern). -/
def Header.new (header_type : HeaderType) (payload : List Nat) : Header :=
  { checksum := Checksum.new payload % 65536
    payload_length := payload.length % 65536
    header_type := header_type }

/-- `Header::wrap_header` (src/tcp/header.rs): serialize to
`[type, payload_len_be (2 bytes), checksum_be (2 bytes), 0x0A]`. -/
def Header.wrap_header (self : Header) : List Nat :=
  [ self.header_type.toByte
  , (self.payload_length >>> 8) &&& 0xFF
  , self.payload_length &&& 0xFF
  , (self.checksum >>> 8) &&& 0xFF
  , self.checksum &&& 0xFF
  , 0x0A ]

/-- `Header::from_bytes` (src/tcp/header.rs): requires exactly 6 bytes with the
0x0A sentinel at index 5, then a recognized type byte; fields are read as
big-endian `u16` (then cast `as i16`, identity on the pattern). -/
def Header.from_bytes (bytes : List Nat) : Except ProtocolError Header :=
  if bytes.length ≠ 6 ∨ bytes.getD 5 0 ≠ 0x0A then
    .error (.InvalidHeaderError ("Format invalid: " ++ toString bytes))
  else
    match HeaderType.try_from (bytes.getD 0 0) with
    | none => .error (.InvalidHeaderError "Invalid message type.")
    | some header_type =>
        .ok { header_type := header_type
              payload_length := 256 * bytes.getD 1 0 + bytes.getD 2 0
              checksum := 256 * bytes.getD 3 0 + bytes.getD 4 0 }

/-- `Packet` (src/tcp/packet.rs). -/
structure Packet where
  header : Header
  payload : List Nat
deriving DecidableEq, Repr

/-- `Packet::parse` (src/tcp/packet.rs): at least 6 bytes, first 6 parsed as a
header, everything after offset 6 becomes the payload (no length check). -/
def Packet.parse (protocol : List Nat) : Except ProtocolError Packet :=
  if protocol.length < 6 then
    .error (.InvalidPacketError "Not enough bytes for a valid packet")
  else
    match Header.from_bytes (protocol.take 6) with
    | .error e => .error e
    | .ok header => .ok { header := header, payload := protocol.drop 6 }

/-- `Packet::new` (src/tcp/packet.rs). -/
def Packet.new (header_type : HeaderType) (payload : List Nat) : Packet :=
  { header := Header.new header_type payload, payload := payload }

/-- `Packet::wrap_packet` (src/tcp/packet.rs): header bytes then payload. -/
def Packet.wrap_packet (self : Packet) : List Nat :=
  self.header.wrap_header ++ self.payload

section ChecksumLemmas

/-- XOR-fold with an arbitrary accumulator factors through the fold from 0. -/
theorem foldl_xor_acc (p : List Nat) (a : Nat) :
    p.foldl (fun checksum byte => checksum ^^^ byte) a
      = a ^^^ p.foldl (fun checksum byte => checksum ^^^ byte) 0 := by
  induction p generalizing a with
  | nil => simp
  | cons x xs ih =>
      simp only [List.foldl_cons]
      rw [ih (a ^^^ x), ih (0 ^^^ x)]
      simp [Nat.xor_assoc]

theorem Checksum.new_cons (b : Nat) (p : List Nat) :
    Checksum.new (b :: p) = b ^^^ Checksum.new p := by
  simp only [Checksum.new, List.foldl_cons]
  rw [foldl_xor_acc]
  simp

/-- The XOR checksum of a list of bytes is itself below 256. -/
theorem Checksum.new_lt_256 (p : List Nat) (h : ∀ b ∈ p, b < 256) :
    Checksum.new p < 256 := by
  induction p with
  | nil => simp [Checksum.new]
  | cons x xs ih =>
      rw [Checksum.new_cons]
      have hx : x < 256 := h x (by simp)
      have hxs : Checksum.new xs < 256 := ih (fun b hb => h b (by simp [hb]))
      have h256 : (256 : Nat) = 2 ^ 8 := by norm_num
      rw [h256] at hx hxs ⊢
      exact Nat.xor_lt_two_pow hx hxs

/-- Replacing one element of the payload XORs its old and new value into the
checksum. -/
theorem Checksum.new_set (p : List Nat) (i : Nat) (hi : i < p.length) (x : Nat) :
    Checksum.new (p.set i x) = Checksum.new p ^^^ p.get ⟨i, hi⟩ ^^^ x := by
  induction p generalizing i with
  | nil => simp at hi
  | cons b bs ih =>
      cases i with
      | zero =>
          simp only [List.set, Checksum.new_cons, List.get]
          simp only [Nat.xor_assoc, Nat.xor_comm, Nat.xor_self, Nat.xor_zero,
            Nat.zero_xor]
          rw [Nat.xor_cancel_left]
      | succ n =>
          have hn : n < bs.length := by simpa using hi
          simp only [List.set, Checksum.new_cons, List.get]
          rw [ih n hn]
          simp [Nat.xor_assoc]

/-- XOR with a nonzero value changes a number. -/
theorem xor_pow_ne (c : Nat) (j : Nat) : c ^^^ 2 ^ j ≠ c := by
  intro hEq
  have h0 : c ^^^ 2 ^ j = c ^^^ 0 := by simpa using hEq
  have := Nat.xor_right_inj.mp h0
  exact absurd this (Nat.pos_iff_ne_zero.mp (Nat.pos_pow_of_pos j (by norm_num)))

end ChecksumLemmas

section CodecLemmas

/-- Big-endian 16-bit split/recombine round-trip. -/
theorem be16_roundtrip (x : Nat) (h : x < 65536) :
    256 * ((x >>> 8) &&& 0xFF) + (x &&& 0xFF) = x := by
  have h1 : x &&& 255 = x % 256 := by
    simpa using Nat.and_pow_two_sub_one_eq_mod x 8
  have h2 : x >>> 8 = x / 256 := by
    rw [Nat.shiftRight_eq_div_pow]
  have h3 : (x / 256) &&& 255 = (x / 256) % 256 := by
    simpa using Nat.and_pow_two_sub_one_eq_mod (x / 256) 8
  rw [h2, h3, h1]
  omega

theorem HeaderType.try_from_toByte (h : HeaderType) :
    HeaderType.try_from h.toByte = some h := by
  cases h <;> rfl

end CodecLemmas

/-- C1: Codec round-trip.  For every header type and every payload of at most
65535 bytes, `Packet::parse (Packet::wrap_packet (Packet::new h p))` succeeds
and returns a packet whose header type is `h`, whose payload is `p`, and whose
checksum field is the 16-bit XOR of the payload bytes. -/
theorem packet_wrap_parse_roundtrip (h : HeaderType) (p : List Nat)
    (hbytes : ∀ b ∈ p, b < 256) (hlen : p.length ≤ 65535) :
    Packet.parse (Packet.wrap_packet (Packet.new h p)) =
      .ok { header := { checksum := Checksum.new p
                        payload_length := p.length
                        header_type := h }
            payload := p } := by
  have hck : Checksum.new p < 256 := Checksum.new_lt_256 p hbytes
  have hck16 : Checksum.new p % 65536 = Checksum.new p := Nat.mod_eq_of_lt (by omega)
  have hpl16 : p.length % 65536 = p.length := Nat.mod_eq_of_lt (by omega)
  simp only [Packet.new, Packet.wrap_packet, Header.new, Header.wrap_header,
    hck16, hpl16, List.cons_append, List.nil_append]
  rw [Packet.parse, if_neg (by simp)]
  simp only [List.take, Header.from_bytes]
  rw [if_neg (by simp)]
  simp only [List.getD_cons_zero, List.getD_cons_succ, HeaderType.try_from_toByte]
  simp only [List.drop]
  rw [be16_roundtrip p.length (by omega),
    be16_roundtrip (Checksum.new p) (by omega)]

/-- C1 witness: the round-trip at a concrete packet. -/
theorem packet_wrap_parse_roundtrip_witness :
    Packet.parse (Packet.wrap_packet (Packet.new .Connect [1, 2, 3])) =
      .ok { header := { checksum := Checksum.new [1, 2, 3]
                        payload_length := 3
                        header_type := .Connect }
            payload := [1, 2, 3] } :=
  packet_wrap_parse_roundtrip .Connect [1, 2, 3] (by decide) (by decide)

/-- C6: Header parsing rejection totality.  Any buffer of fewer than 6 bytes,
and any 6-byte buffer whose byte 5 is not 0x0A or whose byte 0 is not a
recognized header-type value, makes `Header::from_bytes` fail with
`InvalidHeaderError`, and `Packet::parse` yields no packet.  (For buffers of
fewer than 6 bytes, `Packet::parse`'s own guard reports `InvalidPacketError`
before the header parser runs.) -/
theorem header_rejection_totality (buf : List Nat)
    (h : buf.length < 6 ∨
      (buf.length = 6 ∧
        (buf.getD 5 0 ≠ 0x0A ∨ HeaderType.try_from (buf.getD 0 0) = none))) :
    (∃ msg, Header.from_bytes buf = .error (.InvalidHeaderError msg)) ∧
    ∃ e, Packet.parse buf = .error e := by
  rcases h with hshort | ⟨hlen, hbad⟩
  · refine ⟨⟨"Format invalid: " ++ toString buf, ?_⟩,
      ⟨.InvalidPacketError "Not enough bytes for a valid packet", ?_⟩⟩
    · rw [Header.from_bytes, if_pos (Or.inl (by omega))]
    · rw [Packet.parse, if_pos hshort]
  · have htake : buf.take 6 = buf := by
      rw [← hlen]
      exact List.take_length buf
    have hfb : ∃ msg, Header.from_bytes buf = .error (.InvalidHeaderError msg) := by
      by_cases hsent : buf.getD 5 0 = 0x0A
      · rcases hbad with hb | hty
        · exact absurd hsent hb
        · refine ⟨"Invalid message type.", ?_⟩
          rw [Header.from_bytes, if_neg (by push_neg; exact ⟨hlen, hsent⟩), hty]
      · exact ⟨"Format invalid: " ++ toString buf,
          by rw [Header.from_bytes, if_pos (Or.inr hsent)]⟩
    rcases hfb with ⟨msg, hfb⟩
    refine ⟨⟨msg, hfb⟩, ⟨.InvalidHeaderError msg, ?_⟩⟩
    rw [Packet.parse, if_neg (by omega), htake, hfb]

/-- C6 witness: a 3-byte buffer is rejected by both parsers. -/
theorem header_rejection_totality_witness :
    (∃ msg, Header.from_bytes [1, 2, 3] = .error (.InvalidHeaderError msg)) ∧
    ∃ e, Packet.parse [1, 2, 3] = .error e :=
  header_rejection_totality [1, 2, 3] (Or.inl (by decide))

/-- C3 counterexample: a buffer whose header announces `payload_length = 8`
but which carries only 3 payload bytes is accepted by `Packet::parse`, not
rejected. -/
theorem parse_short_payload_counterexample :
    Packet.parse [0x01, 0x00, 0x08, 0x00, 0x00, 0x0A, 1, 2, 3] =
      .ok { header := { checksum := 0, payload_length := 8, header_type := .Connect }
            payload := [1, 2, 3] } ∧
    ([1, 2, 3] : List Nat).length < 8 := by
  constructor
  · rfl
  · decide

/-- C3 amended: `Packet::parse` performs no payload-length check.  Whenever a
buffer has at least 6 bytes and its first 6 bytes parse as a header, the
packet is accepted with everything after offset 6 as its payload, regardless
of the header's `payload_length` field. -/
theorem parse_ignores_payload_length (buf : List Nat) (h6 : 6 ≤ buf.length)
    (hdr : Header) (hh : Header.from_bytes (buf.take 6) = .ok hdr) :
    Packet.parse buf = .ok { header := hdr, payload := buf.drop 6 } := by
  rw [Packet.parse, if_neg (by omega), hh]

/-- C3 amended witness: the concrete short-payload buffer again. -/
theorem parse_ignores_payload_length_witness :
    Packet.parse [0x01, 0x00, 0x08, 0x00, 0x00, 0x0A, 1, 2, 3] =
      .ok { header := { checksum := 0, payload_length := 8, header_type := .Connect }
            payload := ([0x01, 0x00, 0x08, 0x00, 0x00, 0x0A, 1, 2, 3] : List Nat).drop 6 } :=
  parse_ignores_payload_length [0x01, 0x00, 0x08, 0x00, 0x00, 0x0A, 1, 2, 3]
    (by decide)
    { checksum := 0, payload_length := 8, header_type := .Connect }
    (by rfl)

/-- C8: Checksum discrimination.  If `Checksum::check` accepts `(c, p)`, then
flipping any single bit of any payload byte, or any single bit of the 16-bit
checksum value, makes `Checksum::check` return false. -/
theorem checksum_discrimination (c : Nat) (p : List Nat)
    (hc : Checksum.check c p = true) :
    (∀ (i : Nat) (hi : i < p.length) (j : Nat), j < 8 →
        Checksum.check c (p.set i (p.get ⟨i, hi⟩ ^^^ 2 ^ j)) = false) ∧
    (∀ j : Nat, j < 16 → Checksum.check (c ^^^ 2 ^ j) p = false) := by
  have hceq : c = Checksum.new p := by
    simpa [Checksum.check] using hc
  constructor
  · intro i hi j _
    have hset := Checksum.new_set p i hi (p.get ⟨i, hi⟩ ^^^ 2 ^ j)
    rw [Nat.xor_assoc, Nat.xor_cancel_left] at hset
    simp only [Checksum.check, hset, hceq, beq_eq_false_iff_ne, ne_eq]
    exact fun hEq => xor_pow_ne (Checksum.new p) j hEq.symm
  · intro j _
    simp only [Checksum.check, hceq, beq_eq_false_iff_ne, ne_eq]
    exact xor_pow_ne (Checksum.new p) j

/-- C8 witness: flipping bit 0 of payload byte 0, and bit 0 of the checksum,
both break a previously valid checksum. -/
theorem checksum_discrimination_witness :
    Checksum.check 3 ([1, 2].set 0 ((1 : Nat) ^^^ 2 ^ 0)) = false ∧
    Checksum.check (3 ^^^ 2 ^ 0) [1, 2] = false :=
  ⟨(checksum_discrimination 3 [1, 2] (by decide)).1 0 (by decide) 0 (by decide),
   (checksum_discrimination 3 [1, 2] (by decide)).2 0 (by decide)⟩

/-- C10: The XOR checksum of a byte payload never exceeds 0xFF (each payload
byte is zero-extended to 16 bits before folding), so byte 3 of every
server-built packet — the high checksum byte on the wire — is 0x00. -/
theorem checksum_high_byte_zero (header_type : HeaderType) (p : List Nat)
    (hbytes : ∀ b ∈ p, b < 256) :
    Checksum.new p ≤ 0xFF ∧
    (Packet.new header_type p).wrap_packet.getD 3 0 = 0 := by
  have hck : Checksum.new p < 256 := Checksum.new_lt_256 p hbytes
  refine ⟨by omega, ?_⟩
  simp only [Packet.new, Packet.wrap_packet, Header.new, Header.wrap_header,
    List.cons_append, List.nil_append, List.getD_cons_zero, List.getD_cons_succ]
  rw [Nat.mod_eq_of_lt (by omega), Nat.shiftRight_eq_div_pow,
    Nat.div_eq_of_lt (by norm_num at hck ⊢; omega)]
  simp

namespace Protocol

/-- `MessageType` (src/tcp/protocol.rs) — the dispatcher's own copy of the
header-type enum (it lacks `InitServer` and `InvalidPacketPayload`). -/
inductive MessageType where
  | Disconnect
  | Connect
  | Ping
  | Reconnect
  | GameState
  | PlayCard
  | AttackPlayer
  | InvalidHeader
  | AlreadyConnected
  | InvalidPlayerData
  | InvalidChecksum
  | FailedToConnectPlayer
  | ERROR
deriving DecidableEq, Repr

/-- The `#[repr(u8)]` discriminant of each `MessageType` variant. -/
def MessageType.toByte : MessageType → Nat
  | .Disconnect => 0x00
  | .Connect => 0x01
  | .Ping => 0x02
  | .Reconnect => 0x03
  | .GameState => 0x10
  | .PlayCard => 0x11
  | .AttackPlayer => 0x12
  | .InvalidHeader => 0xFA
  | .AlreadyConnected => 0xFB
  | .InvalidPlayerData => 0xFC
  | .InvalidChecksum => 0xFD
  | .FailedToConnectPlayer => 0xF0
  | .ERROR => 0xFE

/-- `impl TryFrom<u8> for MessageType` (src/tcp/protocol.rs): note that only
`0x00–0x03`, `0x10–0x12` and `0xFE` are accepted; the error codes
`0xF0/0xFA–0xFD` are not re-parseable by this copy of the codec. -/
def MessageType.try_from (value : Nat) : Option MessageType :=
  match value with
  | 0x00 => some .Disconnect
  | 0x01 => some .Connect
  | 0x02 => some .Ping
  | 0x03 => some .Reconnect
  | 0x10 => some .GameState
  | 0x11 => some .PlayCard
  | 0x12 => some .AttackPlayer
  | 0xFE => some .ERROR
  | _ => none

/-- `ProtocolHeader` (src/tcp/protocol.rs). -/
structure ProtocolHeader where
  checksum : Nat
  payload_length : Nat
  header_type : MessageType
deriving DecidableEq, Repr

/-- `ProtocolHeader::new` (src/tcp/protocol.rs). -/
def ProtocolHeader.new (header_type : MessageType) (payload : List Nat) :
    ProtocolHeader :=
  { checksum := Checksum.new payload % 65536
    payload_length := payload.length % 65536
    header_type := header_type }

/-- `ProtocolHeader::wrap_header` (src/tcp/protocol.rs). -/
def ProtocolHeader.wrap_header (self : ProtocolHeader) : List Nat :=
  [ self.header_type.toByte
  , (self.payload_length >>> 8) &&& 0xFF
  , self.payload_length &&& 0xFF
  , (self.checksum >>> 8) &&& 0xFF
  , self.checksum &&& 0xFF
  , 0x0A ]

/-- `ProtocolHeader::from_bytes` (src/tcp/protocol.rs). -/
def ProtocolHeader.from_bytes (bytes : List Nat) :
    Except ProtocolError ProtocolHeader :=
  if bytes.length ≠ 6 ∨ bytes.getD 5 0 ≠ 0x0A then
    .error (.InvalidHeaderError ("Format invalid: " ++ toString bytes))
  else
    match MessageType.try_from (bytes.getD 0 0) with
    | none => .error (.InvalidHeaderError "Invalid message type.")
    | some header_type =>
        .ok { header_type := header_type
              payload_length := 256 * bytes.getD 1 0 + bytes.getD 2 0
              checksum := 256 * bytes.getD 3 0 + bytes.getD 4 0 }

/-- `Packet` (src/tcp/protocol.rs). -/
structure Packet where
  header : ProtocolHeader
  payload : List Nat
deriving DecidableEq, Repr

/-- `Packet::parse` (src/tcp/protocol.rs). -/
def Packet.parse (protocol : List Nat) : Except ProtocolError Packet :=
  if protocol.length < 6 then
    .error (.InvalidPacketError "Not enough bytes for a valid packet")
  else
    match ProtocolHeader.from_bytes (protocol.take 6) with
    | .error e => .error e
    | .ok header => .ok { header := header, payload := protocol.drop 6 }

/-- `Packet::new` (src/tcp/protocol.rs). -/
def Packet.new (header_type : MessageType) (payload : List Nat) : Packet :=
  { header := ProtocolHeader.new header_type payload, payload := payload }

/-- `Packet::wrap_packet` (src/tcp/protocol.rs). -/
def Packet.wrap_packet (self : Packet) : List Nat :=
  self.header.wrap_header ++ self.payload

/-- Observable effect of `Protocol::handle_incoming` on one session:
which packets were successfully written back, whether the session was
disconnected (`connected` flag cleared), and whether the packet was routed to
`handle_packet`. -/
structure HandleResult where
  sent : List Packet
  disconnected : Bool
  routed : Bool
deriving DecidableEq, Repr

/-- `Protocol::handle_incoming` (src/tcp/protocol.rs, lines 117–139).
`sendOk` abstracts the network: it is true when `send_packet`'s write (with
its 3 retries) eventually succeeds.  On a checksum mismatch the code builds an
`InvalidChecksum` packet and calls `send_or_disconnect`, which disconnects
only when the write fails; it then returns without routing.  On a checksum
match the packet is passed to `handle_packet` (the success branch's log line
is irrelevant to state).  A parse failure only logs. -/
def handle_incoming (buffer : List Nat) (sendOk : Bool) : HandleResult :=
  match Packet.parse buffer with
  | .error _ => { sent := [], disconnected := false, routed := false }
  | .ok packet =>
      if ! Checksum.check packet.header.checksum packet.payload then
        if sendOk then
          { sent := [Packet.new .InvalidChecksum []]
            disconnected := false
            routed := false }
        else
          { sent := [], disconnected := true, routed := false }
      else
        { sent := [], disconnected := false, routed := true }

end Protocol

/-- C2 counterexample: a parseable packet with a wrong checksum, delivered
while the transport is healthy (`sendOk = true`), makes the server send an
`InvalidChecksum` packet but NOT disconnect the session (`disconnected =
false`), refuting the claim that a checksum mismatch disconnects. -/
theorem handle_incoming_no_disconnect_counterexample :
    (∃ pk, Protocol.Packet.parse [0x11, 0, 8, 0, 0, 0x0A, 1, 2, 3, 4, 5, 6, 7, 8]
        = .ok pk ∧ Checksum.check pk.header.checksum pk.payload = false) ∧
    Protocol.handle_incoming [0x11, 0, 8, 0, 0, 0x0A, 1, 2, 3, 4, 5, 6, 7, 8] true =
      { sent := [Protocol.Packet.new .InvalidChecksum []]
        disconnected := false
        routed := false } := by
  refine ⟨⟨{ header := { checksum := 0, payload_length := 8, header_type := .PlayCard }
             payload := [1, 2, 3, 4, 5, 6, 7, 8] }, ?_, ?_⟩, ?_⟩
  · rfl
  · rfl
  · rfl

/-- C2 amended: on a checksum mismatch, `handle_incoming` sends an
`InvalidChecksum` packet and does not route the packet to any handler; the
session is disconnected only when writing that response fails (after the
3 retries of `send_packet`), not unconditionally. -/
theorem handle_incoming_checksum_mismatch (buffer : List Nat) (sendOk : Bool)
    (pk : Protocol.Packet)
    (hp : Protocol.Packet.parse buffer = .ok pk)
    (hck : Checksum.check pk.header.checksum pk.payload = false) :
    Protocol.handle_incoming buffer sendOk =
      if sendOk then
        { sent := [Protocol.Packet.new .InvalidChecksum []]
          disconnected := false
          routed := false }
      else
        { sent := [], disconnected := true, routed := false } := by
  unfold Protocol.handle_incoming
  rw [hp]
  simp [hck]

/-- C2 amended witness: the concrete mismatching packet again, with a healthy
transport. -/
theorem handle_incoming_checksum_mismatch_witness :
    Protocol.handle_incoming [0x11, 0, 8, 0, 0, 0x0A, 1, 2, 3, 4, 5, 6, 7, 8] true =
      if true then
        ({ sent := [Protocol.Packet.new .InvalidChecksum []]
           disconnected := false
           routed := false } : Protocol.HandleResult)
      else
        { sent := [], disconnected := true, routed := false } :=
  handle_incoming_checksum_mismatch [0x11, 0, 8, 0, 0, 0x0A, 1, 2, 3, 4, 5, 6, 7, 8]
    true
    { header := { checksum := 0, payload_length := 8, header_type := .PlayCard }
      payload := [1, 2, 3, 4, 5, 6, 7, 8] }
    (by rfl) (by rfl)

/-- Modelled from the spec: the enqueue side of the per-session
`missed_packets` queue is absent from the source tree — only its consumer
`Protocol::send_missed_packets` (src/tcp/protocol.rs, `pop_front` in FIFO
order) appears.  Spec §3/§4.3: a bounded deque of capacity 30 with a
drop-oldest (front) policy: "if disconnected, append to the missed queue;
enforce capacity 30 by dropping the oldest (front) when full". -/
def MissedQueue.push (q : List Protocol.Packet) (p : Protocol.Packet) :
    List Protocol.Packet :=
  if 30 ≤ q.length then q.drop 1 ++ [p] else q ++ [p]

/-- C7: Missed-queue bound invariant.  Pushing onto a queue holding at most 30
packets keeps it at most 30, and pushing onto a full queue drops exactly the
front (oldest) element before appending the new packet at the back. -/
theorem missed_queue_bounded (q : List Protocol.Packet) (p : Protocol.Packet)
    (hq : q.length ≤ 30) :
    (MissedQueue.push q p).length ≤ 30 ∧
    (q.length = 30 → MissedQueue.push q p = q.drop 1 ++ [p]) := by
  constructor
  · unfold MissedQueue.push
    by_cases hfull : 30 ≤ q.length
    · rw [if_pos hfull]
      simp only [List.length_append, List.length_drop, List.length_cons,
        List.length_nil]
      omega
    · rw [if_neg hfull]
      simp only [List.length_append, List.length_cons, List.length_nil]
      omega
  · intro hfull
    unfold MissedQueue.push
    rw [if_pos (by omega)]

/-- C7 witness: pushing onto a full 30-element queue. -/
theorem missed_queue_bounded_witness :
    (MissedQueue.push (List.replicate 30 (Protocol.Packet.new .Ping []))
        (Protocol.Packet.new .Ping [])).length ≤ 30 ∧
    ((List.replicate 30 (Protocol.Packet.new .Ping [])).length = 30 →
      MissedQueue.push (List.replicate 30 (Protocol.Packet.new .Ping []))
          (Protocol.Packet.new .Ping [])
        = (List.replicate 30 (Protocol.Packet.new .Ping [])).drop 1
            ++ [Protocol.Packet.new .Ping []]) :=
  missed_queue_bounded (List.replicate 30 (Protocol.Packet.new .Ping []))
    (Protocol.Packet.new .Ping []) (by simp)

/-- `GameAction` (src/models/game_action.rs). -/
inductive GameAction where
  | DealDamage (target : String) (amount : Nat)
  | Heal (target : String) (amount : Nat)
  | Summon (id : String) (position : String)
deriving DecidableEq, Repr

/-- `GameLogicError` (src/utils/errors.rs). -/
inductive GameLogicError where
  | CardPlayedIsNotInHand
  | UnableToGetCardDetails
  | PlayerIdDoesNotMatch
  | PlayerNotFound
  | FunctionNotFound (func : String) (card : String)
  | FunctionNotCallable (func : String)
  | InvalidGameActions
  | NotPlayerTurn
deriving DecidableEq, Repr

/-- `CardView` (src/game/entity/card.rs): only the `id` field participates in
the control flow verified here (the full struct also carries name, stats and
zone flags). -/
structure CardView where
  id : String
deriving DecidableEq, Repr

/-- `LuaContext` (src/game/lua_context.rs): the fields that flow into the
verified dispatcher logic (`actor_view`, `target_view` and the game-state
snapshot are carried opaquely into the VM and are omitted). -/
structure LuaContext where
  event : String
  action_name : String
  actor_id : String
  target_id : Option String
deriving DecidableEq, Repr

/-- Association-list reading of a `HashMap` lookup (`map.get(key)`). -/
def assocGet {α : Type} (m : List (String × α)) (key : String) : Option α :=
  (m.find? (fun e => e.1 == key)).map (fun e => e.2)

/-- `ScriptManager` (src/game/script_manager.rs): four namespace maps from
function name to VM function handle.  The handle type `F` (mlua `Function`)
is kept abstract. -/
structure ScriptManager (F : Type) where
  core : List (String × F)
  cards : List (String × F)
  effects : List (String × F)
  triggers : List (String × F)


/-- Character-level worker for Rust `splitn(2, ":")`: the text before the
first colon, and — when a colon exists — everything after it. -/
def splitn2Chars : List Char → List Char × Option (List Char)
  | [] => ([], none)
  | c :: rest =>
      if c = ':' then ([], some rest)
      else
        let r := splitn2Chars rest
        (c :: r.1, r.2)

/-- Rust `action.splitn(2, ":")`: at most two pieces, split at the first
colon; a string without a colon stays a single piece. -/
def splitn2 (s : String) : List String :=
  match splitn2Chars s.toList with
  | (before, none) => [⟨before⟩]
  | (before, some after) => [⟨before⟩, ⟨after⟩]

/-- The text of an action name before its first colon (the whole name when no
colon exists). -/
def beforeColon (s : String) : String :=
  ⟨(splitn2Chars s.toList).1⟩

/-- Whether an action name contains a colon. -/
def hasColon (s : String) : Bool :=
  ((splitn2Chars s.toList).2).isSome

/-- The `match action_parts.as_slice()` arms of `ScriptManager::get_function`. -/
def namespaceLookup {F : Type} (self : ScriptManager F) :
    List String → Option F
  | [ns, key] =>
      if ns = "cards" then assocGet self.cards key
      else if ns = "core" then assocGet self.core key
      else if ns = "effects" then assocGet self.effects key
      else if ns = "triggers" then assocGet self.triggers key
      else none
  | _ => none

/-- `ScriptManager::get_function` (src/game/script_manager.rs, lines 135–144):
split the action at the first colon and look the key up in the namespace map
selected by the text before the colon. -/
def ScriptManager.get_function {F : Type} (self : ScriptManager F)
    (action : String) : Option F :=
  namespaceLookup self (splitn2 action)

/-- Outcome of one VM invocation (`function.call` plus the `from_value`
deserialization), abstracted as an oracle result. -/
inductive VmResult where
  | CallFailed
  | BadValue
  | Value (actions : List GameAction)

/-- `ScriptManager::call_function_ctx` (src/game/script_manager.rs, lines
168–189).  `callVM` abstracts the Lua VM: invoking the resolved function on
the context either fails to call (`FunctionNotCallable`), returns a value that
does not deserialize to a `GameAction` list (`InvalidGameActions`), or
produces the action list. -/
def ScriptManager.call_function_ctx {F : Type} (self : ScriptManager F)
    (callVM : F → LuaContext → VmResult) (action : String) (ctx : LuaContext) :
    Except GameLogicError (List GameAction) :=
  match self.get_function action with
  | some function =>
      match callVM function ctx with
      | .CallFailed => .error (.FunctionNotCallable action)
      | .BadValue => .error .InvalidGameActions
      | .Value game_actions => .ok game_actions
  | none => .error (.FunctionNotFound action ctx.actor_id)

/-- C9: For every action name whose text before the first colon is not one of
the four script namespaces — including names with no colon at all —
`get_function` returns `None`, and `call_function_ctx` returns
`FunctionNotFound` for every possible VM behaviour `callVM` (so the VM is
never consulted). -/
theorem unknown_namespace_function_not_found {F : Type}
    (self : ScriptManager F) (callVM : F → LuaContext → VmResult)
    (action : String) (ctx : LuaContext)
    (h : hasColon action = false ∨
      beforeColon action ∉
        (["core", "cards", "effects", "triggers"] : List String)) :
    self.get_function action = none ∧
    self.call_function_ctx callVM action ctx =
      .error (.FunctionNotFound action ctx.actor_id) := by
  have hget : self.get_function action = none := by
    unfold ScriptManager.get_function splitn2
    unfold hasColon beforeColon at h
    rcases hsp : splitn2Chars action.toList with ⟨before, _ | after⟩
    · simp [namespaceLookup]
    · rw [hsp] at h
      rcases h with hnone | hns
      · simp at hnone
      · simp only [List.mem_cons, List.mem_singleton, not_or] at hns
        obtain ⟨h1, h2, h3, h4, _⟩ := hns
        simp [namespaceLookup, h1, h2, h3, h4]
  refine ⟨hget, ?_⟩
  unfold ScriptManager.call_function_ctx
  rw [hget]

/-- C9 witness: a qualified name in an unknown namespace. -/
theorem unknown_namespace_function_not_found_witness :
    (ScriptManager.get_function (F := Nat)
        { core := [("log", 0)], cards := [], effects := [], triggers := [] }
        "foo:bar") = none ∧
    (ScriptManager.call_function_ctx (F := Nat)
        { core := [("log", 0)], cards := [], effects := [], triggers := [] }
        (fun _ _ => VmResult.CallFailed) "foo:bar"
        { event := "on_play", action_name := "foo:bar"
          actor_id := "c1", target_id := none }) =
      .error (.FunctionNotFound "foo:bar" "c1") :=
  unknown_namespace_function_not_found
    { core := [("log", 0)], cards := [], effects := [], triggers := [] }
    (fun _ _ => VmResult.CallFailed) "foo:bar"
    { event := "on_play", action_name := "foo:bar"
      actor_id := "c1", target_id := none }
    (Or.inr (by decide))

/-- `PlayerView` / `PrivatePlayerView` as used by the play-card pipeline
(src/game/entity/player.rs): the view's id and its fixed-capacity hand of
optional card views (only these fields participate in the verified flow). -/
structure PlayerView where
  id : String
  current_hand : List (Option CardView)
deriving DecidableEq, Repr

/-- `Card` (src/game/entity/card.rs): id and the `on_play` trigger list of
qualified script names (the other stats and trigger slots are not touched by
the verified flow). -/
structure Card where
  id : String
  on_play : List String
deriving DecidableEq, Repr

/-- `PlayCardRequest` as consumed by `GameInstance::play_card`
(src/game/game.rs uses `request.actor_id` / `request.card_id`). -/
structure PlayCardRequest where
  actor_id : String
  card_id : String
deriving DecidableEq, Repr

/-- `GameState` (src/game/game_state.rs fields, plus the `player_views` map
that src/game/game.rs's `play_card` reads). -/
structure GameState where
  rounds : Nat
  red_first : Bool
  curr_turn : String
  red_player : String
  blue_player : String
  ongoing : Bool
  player_views : List (String × PlayerView)
deriving DecidableEq, Repr

/-- `GameState::new_game` (src/game/game_state.rs lines 22–34, with the
`player_views` argument that src/game/game.rs's `create_instance` passes). -/
def GameState.new_game (views : List (String × PlayerView)) : GameState :=
  { rounds := 0
    red_first := true
    player_views := views
    red_player := ""
    blue_player := ""
    curr_turn := "Red"
    ongoing := true }

/-- `GameState::apply_actions` (src/game/game_state.rs line 76): the body is
empty — the state is returned unchanged. -/
def GameState.apply_actions (self : GameState) (actions : List GameAction) :
    GameState :=
  self

/-- `LuaContext::new` as called from the `on_play` loop
(src/game/lua_context.rs; src/game/game.rs passes the played card view as
actor and no target). -/
def LuaContext.new (gs : GameState) (actor : CardView) (target : Option CardView)
    (event : String) (action : String) : LuaContext :=
  { event := event
    action_name := action
    actor_id := actor.id
    target_id := target.map (fun t => t.id) }

/-- The `for action in &full_card.on_play` loop of `GameInstance::play_card`
(src/game/game.rs lines 134–151): build a context, call the script, propagate
its error, apply the returned actions; also records the invoked action names
in order. -/
def run_on_play {F : Type} (sm : ScriptManager F)
    (callVM : F → LuaContext → VmResult) (gs : GameState)
    (card_view : CardView) :
    List String → Except GameLogicError (GameState × List String)
  | [] => .ok (gs, [])
  | action :: rest =>
      let ctx := LuaContext.new gs card_view none "on_play" action
      match sm.call_function_ctx callVM action ctx with
      | .error e => .error e
      | .ok game_actions =>
          match run_on_play sm callVM (gs.apply_actions game_actions)
              card_view rest with
          | .error e => .error e
          | .ok (gsf, invoked) => .ok (gsf, action :: invoked)

/-- `GameInstance::play_card` (src/game/game.rs lines 77–154).  `callVM`
abstracts the Lua VM and `fetchCard` the external card service
(`Card::request_card`; `none` = fetch failure).  On a `full_cards` cache miss
the source fetches the card, inserts it via `add_card` and re-reads it, which
yields the fetched card; this is collapsed into using the fetched card
directly.  The result carries the final game state and the invoked `on_play`
action names in order. -/
def GameInstance.play_card {F : Type} (sm : ScriptManager F)
    (callVM : F → LuaContext → VmResult)
    (full_cards : List (String × Card))
    (fetchCard : String → Option Card)
    (game_state : GameState)
    (client_player_id : String)
    (request : PlayCardRequest) :
    Except GameLogicError (GameState × List String) :=
  match assocGet game_state.player_views request.actor_id with
  | none => .error .PlayerNotFound
  | some player_view =>
      if client_player_id ≠ player_view.id then .error .PlayerIdDoesNotMatch
      else if player_view.id ≠ request.actor_id then .error .NotPlayerTurn
      else
        match (player_view.current_hand.filterMap id).find?
            (fun c => c.id == request.card_id) with
        | none => .error .CardPlayedIsNotInHand
        | some card_view =>
            match (match assocGet full_cards card_view.id with
                   | some card => some card
                   | none => fetchCard card_view.id) with
            | none => .error .UnableToGetCardDetails
            | some full_card =>
                run_on_play sm callVM game_state card_view full_card.on_play

/-- C5: A `PlayCard` request whose `card_id` matches no card view in the
actor's `current_hand` fails with `CardPlayedIsNotInHand`, for every VM
behaviour, every card cache and every card-service behaviour — so no script
runs, nothing is fetched, and no state is produced (the source returns the
error before the `on_play` loop; the session is untouched). -/
theorem play_card_card_not_in_hand {F : Type} (sm : ScriptManager F)
    (callVM : F → LuaContext → VmResult)
    (full_cards : List (String × Card)) (fetchCard : String → Option Card)
    (gs : GameState) (client_player_id : String) (request : PlayCardRequest)
    (pv : PlayerView)
    (hview : assocGet gs.player_views request.actor_id = some pv)
    (hclient : client_player_id = pv.id)
    (hactor : pv.id = request.actor_id)
    (hhand : ∀ c ∈ pv.current_hand.filterMap id, c.id ≠ request.card_id) :
    GameInstance.play_card sm callVM full_cards fetchCard gs client_player_id
      request = .error .CardPlayedIsNotInHand := by
  unfold GameInstance.play_card
  rw [hview]
  simp only []
  rw [if_neg (not_ne_iff.mpr hclient), if_neg (not_ne_iff.mpr hactor)]
  have hfind : (pv.current_hand.filterMap id).find?
      (fun c => c.id == request.card_id) = none := by
    rw [List.find?_eq_none]
    intro c hc
    simpa using hhand c hc
  rw [hfind]

/-- C5 witness: playing an unknown card id from a one-card hand. -/
theorem play_card_card_not_in_hand_witness :
    GameInstance.play_card (F := Nat)
        { core := [("log", 0)], cards := [], effects := [], triggers := [] }
        (fun _ _ => VmResult.CallFailed)
        [] (fun _ => none)
        (GameState.new_game
          [("p1", { id := "p1", current_hand := [some { id := "c1" }, none] })])
        "p1"
        { actor_id := "p1", card_id := "UNKNOWN" }
      = .error .CardPlayedIsNotInHand :=
  play_card_card_not_in_hand
    { core := [("log", 0)], cards := [], effects := [], triggers := [] }
    (fun _ _ => VmResult.CallFailed)
    [] (fun _ => none)
    (GameState.new_game
      [("p1", { id := "p1", current_hand := [some { id := "c1" }, none] })])
    "p1"
    { actor_id := "p1", card_id := "UNKNOWN" }
    { id := "p1", current_hand := [some { id := "c1" }, none] }
    (by rfl) (by rfl) (by rfl) (by decide)

/-- C4: the turn gate is not enforced.  With `curr_turn = "p2"`, a `PlayCard`
request by `"p1"` (the session owner, holding the card) does NOT fail with
`NotPlayerTurn`: the pipeline runs the card's `on_play` script.  The source's
"Confirm it is currently this player's turn" check compares the looked-up
view's id against `request.actor_id` — the very key the view was fetched
under — and never consults `curr_turn`, so it can never fire. -/
theorem play_card_turn_gate_not_enforced :
    GameInstance.play_card (F := Nat)
        { core := [("log", 0)], cards := [], effects := [], triggers := [] }
        (fun _ _ => VmResult.Value [])
        [("c1", { id := "c1", on_play := ["core:log"] })]
        (fun _ => none)
        { rounds := 0, red_first := true, curr_turn := "p2"
          red_player := "p1", blue_player := "p2", ongoing := true
          player_views :=
            [ ("p1", { id := "p1", current_hand := [some { id := "c1" }] })
            , ("p2", { id := "p2", current_hand := [] }) ] }
        "p1"
        { actor_id := "p1", card_id := "c1" }
      = .ok
        ({ rounds := 0, red_first := true, curr_turn := "p2"
           red_player := "p1", blue_player := "p2", ongoing := true
           player_views :=
             [ ("p1", { id := "p1", current_hand := [some { id := "c1" }] })
             , ("p2", { id := "p2", current_hand := [] }) ] }
        , ["core:log"]) ∧
    ("p2" : String) ≠ "p1" := by
  constructor
  · rfl
  · decide

/-- C10 witness: a concrete three-byte payload. -/
theorem checksum_high_byte_zero_witness :
    Checksum.new [0x12, 0x34, 0x56] ≤ 0xFF ∧
    (Packet.new .GameState [0x12, 0x34, 0x56]).wrap_packet.getD 3 0 = 0 :=
  checksum_high_byte_zero .GameState [0x12, 0x34, 0x56] (by decide)
